import Mathlib

/-!
Verification of the deterministic nutrition core of the AI-NutritionAgent
repository: the KBJU calculator (src/tools/kbju_calculator.py) and the
consultation-data validator (src/tools/validation_tool.py).

Embedding conventions:
* Python floats are embedded as exact rationals (ℚ).  The numeric literals of
  the source (1.2, 6.25, 0.25, ...) are all exactly representable, so the
  embedding is exact except for `round(x, 1)`, which is embedded as
  `roundTo1` below (round-half-up; Python rounds half to even, the two agree
  everywhere except at exact .05 ties, and no property proved here is
  sensitive to tie direction).
* Python dicts returned by the tools are embedded as structures in which a
  key that is absent on some path is represented by the default value of the
  corresponding field (empty string / 0 / empty list).
* Optional numeric arguments are `Option ℚ`; Python truthiness (`if x:`)
  for them is `qtruthy` (false for `None` and for `0`).
* String lowercasing is embedded character-wise (`lowerStr`), and the Python
  substring test `kw in food` is `strIn kw food`.
* Message texts follow the source, except that apostrophes and numeric
  display formatting (":.0f" / ":.1f") are elided; no claim depends on them.
-/

/-- Substring test on character lists: does `needle` occur contiguously in
the second list?  (Shallow embedding of Python `needle in haystack`.) -/
def hasSub (needle : List Char) : List Char → Bool
  | [] => needle.isEmpty
  | c :: t => needle.isPrefixOf (c :: t) || hasSub needle t

/-- Python `needle in hay` for strings. -/
def strIn (needle hay : String) : Bool := hasSub needle.data hay.data

/-- Python `s.lower()`, embedded character-wise. -/
def lowerStr (s : String) : String := String.mk (s.data.map Char.toLower)

/-! ## KBJU calculator — src/tools/kbju_calculator.py -/

/-- Goal enum, from the `Literal` annotation of `calculate_kbju`
(src/tools/kbju_calculator.py line 87). -/
inductive Goal
  | weight_loss
  | maintenance
  | muscle_gain
  | recomp
deriving DecidableEq

/-- Goal-rate enum (src/tools/kbju_calculator.py line 88). -/
inductive GoalRate
  | slow
  | moderate
  | aggressive
deriving DecidableEq

def Goal.asString : Goal → String
  | .weight_loss => "weight_loss"
  | .maintenance => "maintenance"
  | .muscle_gain => "muscle_gain"
  | .recomp => "recomp"

def GoalRate.asString : GoalRate → String
  | .slow => "slow"
  | .moderate => "moderate"
  | .aggressive => "aggressive"

/-- `calculate_bmr`, src/tools/kbju_calculator.py lines 18-43
(Mifflin-St Jeor).  Gender is a string as in the source: the "male" branch
is taken for exactly `"male"`, every other string takes the female branch. -/
def calculate_bmr (weight_kg height_cm : ℚ) (age : ℤ) (gender : String) : ℚ :=
  if gender = "male" then
    10 * weight_kg + 6.25 * height_cm - 5 * (age : ℚ) + 5
  else
    10 * weight_kg + 6.25 * height_cm - 5 * (age : ℚ) - 161

/-- `get_activity_multiplier`, src/tools/kbju_calculator.py lines 46-71.
The source reads the table with `.get(activity_level, 1.2)`, hence the
final default 1.2 for unknown levels. -/
def get_activity_multiplier (activity_level : String) : ℚ :=
  if activity_level = "sedentary" then 1.2
  else if activity_level = "lightly_active" then 1.375
  else if activity_level = "moderately_active" then 1.55
  else if activity_level = "very_active" then 1.725
  else if activity_level = "extremely_active" then 1.9
  else 1.2

/-- The `goal_adjustments` table, src/tools/kbju_calculator.py lines 146-169. -/
def goal_adjustment : Goal → GoalRate → ℚ
  | .weight_loss, .slow => -250
  | .weight_loss, .moderate => -500
  | .weight_loss, .aggressive => -750
  | .maintenance, _ => 0
  | .muscle_gain, .slow => 200
  | .muscle_gain, .moderate => 350
  | .muscle_gain, .aggressive => 500
  | .recomp, _ => 0

/-- Python `round(x, 1)` (see rounding note in the header). -/
def roundTo1 (x : ℚ) : ℚ := (round (10 * x) : ℤ) / 10

/-! Intermediate values of `calculate_macro_distribution`
(src/tools/kbju_calculator.py lines 220-309), one definition per source
assignment, all on unrounded values as in the source. -/

/-- Lines 243-252: grams of protein per kg by goal, +0.2 for high activity. -/
def md_protein_per_kg (goal : Goal) (activity_level : String) : ℚ :=
  (if goal = .muscle_gain then 2.2
   else if goal = .recomp ∨ goal = .weight_loss then 2.0
   else 1.8) +
  (if activity_level = "very_active" ∨ activity_level = "extremely_active"
   then 0.2 else 0)

/-- Line 254. -/
def md_protein_g (weight_kg : ℚ) (goal : Goal) (activity_level : String) : ℚ :=
  weight_kg * md_protein_per_kg goal activity_level

/-- Line 255. -/
def md_protein_cal (weight_kg : ℚ) (goal : Goal) (activity_level : String) : ℚ :=
  md_protein_g weight_kg goal activity_level * 4

/-- Lines 259-265 (the initial 0.25 is dead: every branch overwrites it). -/
def md_fat_percent (goal : Goal) : ℚ :=
  if goal = .weight_loss then 0.25
  else if goal = .muscle_gain then 0.25
  else 0.30

/-- Line 267: fat calories before the 0.8 g/kg floor. -/
def md_fat_cal0 (target_calories : ℚ) (goal : Goal) : ℚ :=
  target_calories * md_fat_percent goal

/-- Line 268: fat grams before the floor. -/
def md_fat_g0 (target_calories : ℚ) (goal : Goal) : ℚ :=
  md_fat_cal0 target_calories goal / 9

/-- Line 271. -/
def md_min_fat_g (weight_kg : ℚ) : ℚ := weight_kg * 0.8

/-- Lines 272-274: fat grams after the floor. -/
def md_fat_g (target_calories weight_kg : ℚ) (goal : Goal) : ℚ :=
  if md_fat_g0 target_calories goal < md_min_fat_g weight_kg then
    md_min_fat_g weight_kg
  else md_fat_g0 target_calories goal

/-- Lines 272-274: fat calories after the floor. -/
def md_fat_cal (target_calories weight_kg : ℚ) (goal : Goal) : ℚ :=
  if md_fat_g0 target_calories goal < md_min_fat_g weight_kg then
    md_min_fat_g weight_kg * 9
  else md_fat_cal0 target_calories goal

/-- Line 277: carbohydrate calories are the remainder. -/
def md_carbs_cal (target_calories weight_kg : ℚ) (goal : Goal)
    (activity_level : String) : ℚ :=
  target_calories - md_protein_cal weight_kg goal activity_level -
    md_fat_cal target_calories weight_kg goal

/-- Line 278. -/
def md_carbs_g (target_calories weight_kg : ℚ) (goal : Goal)
    (activity_level : String) : ℚ :=
  md_carbs_cal target_calories weight_kg goal activity_level / 4

/-- Result dict of `calculate_macro_distribution`; absent keys are the
field defaults. -/
structure MacroResult where
  status : String
  error_message : String := ""
  protein_g : ℚ := 0
  fat_g : ℚ := 0
  carbs_g : ℚ := 0
  protein_cal : ℚ := 0
  fat_cal : ℚ := 0
  carbs_cal : ℚ := 0
  protein_percent : ℚ := 0
  fat_percent : ℚ := 0
  carbs_percent : ℚ := 0
deriving DecidableEq

/-- `calculate_macro_distribution`, src/tools/kbju_calculator.py
lines 220-309.  (The division by `target_calories` in the percentages is
total in ℚ; in the source a zero target would raise and be caught by the
generic `except`, but `calculate_kbju` always passes a target ≥ 1200.) -/
def calculate_macro_distribution (target_calories weight_kg : ℚ) (goal : Goal)
    (activity_level : String) : MacroResult :=
  if md_carbs_g target_calories weight_kg goal activity_level < 0 then
    { status := "error"
      error_message := "Unable to fit macros within calorie target. Protein and fat requirements exceed total calories." }
  else
    { status := "success"
      protein_g := roundTo1 (md_protein_g weight_kg goal activity_level)
      fat_g := roundTo1 (md_fat_g target_calories weight_kg goal)
      carbs_g := roundTo1 (md_carbs_g target_calories weight_kg goal activity_level)
      protein_cal := roundTo1 (md_protein_cal weight_kg goal activity_level)
      fat_cal := roundTo1 (md_fat_cal target_calories weight_kg goal)
      carbs_cal := roundTo1 (md_carbs_cal target_calories weight_kg goal activity_level)
      protein_percent := roundTo1 (md_protein_cal weight_kg goal activity_level / target_calories * 100)
      fat_percent := roundTo1 (md_fat_cal target_calories weight_kg goal / target_calories * 100)
      carbs_percent := roundTo1 (md_carbs_cal target_calories weight_kg goal activity_level / target_calories * 100) }

/-! Intermediate values of `calculate_kbju`
(src/tools/kbju_calculator.py lines 74-217). -/

/-- Line 143: TDEE = BMR × activity multiplier. -/
def kbju_tdee (weight_kg height_cm : ℚ) (age : ℤ) (gender activity_level : String) : ℚ :=
  calculate_bmr weight_kg height_cm age gender * get_activity_multiplier activity_level

/-- Line 170: target calories before the safety floor. -/
def kbju_target_raw (weight_kg height_cm : ℚ) (age : ℤ)
    (gender activity_level : String) (goal : Goal) (rate : GoalRate) : ℚ :=
  kbju_tdee weight_kg height_cm age gender activity_level + goal_adjustment goal rate

/-- Line 173: the sex-specific safe minimum. -/
def kbju_min_calories (gender : String) : ℚ :=
  if gender = "female" then 1200 else 1500

/-- Lines 174-178: target calories after the floor. -/
def kbju_target_calories (weight_kg height_cm : ℚ) (age : ℤ)
    (gender activity_level : String) (goal : Goal) (rate : GoalRate) : ℚ :=
  if kbju_target_raw weight_kg height_cm age gender activity_level goal rate <
      kbju_min_calories gender then
    kbju_min_calories gender
  else kbju_target_raw weight_kg height_cm age gender activity_level goal rate

/-- Lines 174-178: the notes string. -/
def kbju_notes (weight_kg height_cm : ℚ) (age : ℤ)
    (gender activity_level : String) (goal : Goal) (rate : GoalRate) : String :=
  if kbju_target_raw weight_kg height_cm age gender activity_level goal rate <
      kbju_min_calories gender then
    "Calories adjusted to safe minimum (" ++ toString (kbju_min_calories gender) ++ " kcal)"
  else
    "Calculation based on " ++ goal.asString ++ " goal at " ++ rate.asString ++ " rate"

/-- Result dict of `calculate_kbju`; absent keys are the field defaults. -/
structure KbjuResult where
  status : String
  error_message : String := ""
  bmr : ℚ := 0
  tdee : ℚ := 0
  target_calories : ℚ := 0
  protein_g : ℚ := 0
  fat_g : ℚ := 0
  carbs_g : ℚ := 0
  protein_cal : ℚ := 0
  fat_cal : ℚ := 0
  carbs_cal : ℚ := 0
  protein_percent : ℚ := 0
  fat_percent : ℚ := 0
  carbs_percent : ℚ := 0
  notes : String := ""
deriving DecidableEq

/-- `calculate_kbju`, src/tools/kbju_calculator.py lines 74-217.  The
`tool_context` argument only receives a copy of the result (line 209) and
does not influence it, so it is dropped from the embedding. -/
def calculate_kbju (weight_kg height_cm : ℚ) (age : ℤ)
    (gender activity_level : String) (goal : Goal) (rate : GoalRate) : KbjuResult :=
  if weight_kg ≤ 0 ∨ height_cm ≤ 0 ∨ age ≤ 0 then
    { status := "error"
      error_message := "Weight, height, and age must be positive values" }
  else if age < 18 then
    { status := "error"
      error_message := "This calculator is designed for adults 18+. Please consult a pediatric nutritionist." }
  else if (calculate_macro_distribution
      (kbju_target_calories weight_kg height_cm age gender activity_level goal rate)
      weight_kg goal activity_level).status = "error" then
    -- line 189: the macro error dict is returned as-is
    { status := "error"
      error_message := (calculate_macro_distribution
        (kbju_target_calories weight_kg height_cm age gender activity_level goal rate)
        weight_kg goal activity_level).error_message }
  else
    { status := "success"
      bmr := roundTo1 (calculate_bmr weight_kg height_cm age gender)
      tdee := roundTo1 (kbju_tdee weight_kg height_cm age gender activity_level)
      target_calories := roundTo1 (kbju_target_calories weight_kg height_cm age gender activity_level goal rate)
      protein_g := (calculate_macro_distribution
        (kbju_target_calories weight_kg height_cm age gender activity_level goal rate)
        weight_kg goal activity_level).protein_g
      fat_g := (calculate_macro_distribution
        (kbju_target_calories weight_kg height_cm age gender activity_level goal rate)
        weight_kg goal activity_level).fat_g
      carbs_g := (calculate_macro_distribution
        (kbju_target_calories weight_kg height_cm age gender activity_level goal rate)
        weight_kg goal activity_level).carbs_g
      protein_cal := (calculate_macro_distribution
        (kbju_target_calories weight_kg height_cm age gender activity_level goal rate)
        weight_kg goal activity_level).protein_cal
      fat_cal := (calculate_macro_distribution
        (kbju_target_calories weight_kg height_cm age gender activity_level goal rate)
        weight_kg goal activity_level).fat_cal
      carbs_cal := (calculate_macro_distribution
        (kbju_target_calories weight_kg height_cm age gender activity_level goal rate)
        weight_kg goal activity_level).carbs_cal
      protein_percent := (calculate_macro_distribution
        (kbju_target_calories weight_kg height_cm age gender activity_level goal rate)
        weight_kg goal activity_level).protein_percent
      fat_percent := (calculate_macro_distribution
        (kbju_target_calories weight_kg height_cm age gender activity_level goal rate)
        weight_kg goal activity_level).fat_percent
      carbs_percent := (calculate_macro_distribution
        (kbju_target_calories weight_kg height_cm age gender activity_level goal rate)
        weight_kg goal activity_level).carbs_percent
      notes := kbju_notes weight_kg height_cm age gender activity_level goal rate }

/-! ## Consultation-data validator — src/tools/validation_tool.py -/

/-- One validation finding (the dicts appended to `errors`/`warnings`,
src/tools/validation_tool.py). -/
structure Finding where
  type : String
  severity : String
  issue : String
  resolution : String
deriving DecidableEq

/-- Python truthiness of an optional float argument (`if x:` is false for
`None` and for `0`). -/
def qtruthy : Option ℚ → Bool
  | none => false
  | some x => x ≠ 0

/-- The value under a truthy optional float (only read under `qtruthy`). -/
def qval : Option ℚ → ℚ
  | none => 0
  | some x => x

/-- Python truthiness of an optional string argument. -/
def struthy : Option String → Bool
  | none => false
  | some s => s ≠ ""

/-- The value under a truthy optional string. -/
def sval : Option String → String
  | none => ""
  | some s => s

/-- Keyword set, src/tools/validation_tool.py line 70. -/
def MEAT_FOODS : List String :=
  ["beef", "pork", "chicken", "turkey", "lamb", "duck", "venison", "meat"]

/-- Line 71: `MEAT_FOODS + [...]`. -/
def ANIMAL_PRODUCTS : List String :=
  MEAT_FOODS ++ ["eggs", "dairy", "milk", "cheese", "yogurt", "butter", "honey"]

/-- Line 72. -/
def SEAFOOD : List String :=
  ["fish", "salmon", "tuna", "shrimp", "shellfish", "lobster", "crab", "seafood"]

/-- Line 73. -/
def GLUTEN_FOODS : List String :=
  ["wheat", "bread", "pasta", "flour", "barley", "rye", "gluten"]

/-- Line 74. -/
def DAIRY_FOODS : List String :=
  ["milk", "cheese", "yogurt", "butter", "cream", "dairy"]

/-- Python `any(kw in f for kw in kws)`. -/
def matchesAny (kws : List String) (f : String) : Bool :=
  kws.any (fun kw => strIn kw f)

/-! Section 1 of `validate_consultation_data` (lines 80-137): dietary
restriction contradictions.  `dr` and `ff` are the already-lowercased
restriction and favorite-food lists. -/

/-- Lines 85-94: vegetarian vs meat favorites (error). -/
def vegetarianMeatErrors (dr ff : List String) : List Finding :=
  if "vegetarian" ∈ dr then
    let conflicting := ff.filter (fun f => matchesAny MEAT_FOODS f)
    if conflicting.isEmpty then []
    else
      [{ type := "dietary_contradiction", severity := "high"
         issue := "User is vegetarian but lists meat as favorites: " ++
           String.intercalate ", " conflicting
         resolution := "Ask user to clarify: Do you want vegetarian recipes, or would you like to include meat?" }]
  else []

/-- Lines 96-99: pescatarian suggestion. -/
def pescatarianSuggestions (dr ff : List String) : List String :=
  if "vegetarian" ∈ dr then
    let seafood_favorites := ff.filter (fun f => matchesAny SEAFOOD f)
    if seafood_favorites.isEmpty then []
    else
      ["User likes seafood (" ++ String.intercalate ", " seafood_favorites ++
        ") - consider asking if they are pescatarian instead of vegetarian"]
  else []

/-- Lines 102-111: vegan vs animal-product favorites (error). -/
def veganAnimalErrors (dr ff : List String) : List Finding :=
  if "vegan" ∈ dr then
    let conflicting := ff.filter (fun f => matchesAny ANIMAL_PRODUCTS f)
    if conflicting.isEmpty then []
    else
      [{ type := "dietary_contradiction", severity := "critical"
         issue := "User is vegan but lists animal products as favorites: " ++
           String.intercalate ", " conflicting
         resolution := "Ask user: Do you want strictly vegan recipes, or are you flexible with some animal products?" }]
  else []

/-- Lines 113-115: vegan implies vegetarian (suggestion). -/
def veganVegetarianSuggestions (dr : List String) : List String :=
  if "vegan" ∈ dr ∧ "vegetarian" ∉ dr then
    ["User is vegan - automatically including vegetarian as well since vegan is more restrictive"]
  else []

/-- Lines 118-126: gluten-free vs gluten favorites (warning). -/
def glutenWarnings (dr ff : List String) : List Finding :=
  if "gluten_free" ∈ dr ∨ "gluten-free" ∈ dr then
    let conflicting := ff.filter (fun f => matchesAny GLUTEN_FOODS f)
    if conflicting.isEmpty then []
    else
      [{ type := "dietary_warning", severity := "medium"
         issue := "User is gluten-free but lists gluten-containing foods as favorites: " ++
           String.intercalate ", " conflicting
         resolution := "Offer gluten-free alternatives to their favorite foods" }]
  else []

/-- Lines 129-137: lactose-intolerant/dairy-free vs dairy favorites (warning). -/
def dairyWarnings (dr ff : List String) : List Finding :=
  if "lactose_intolerant" ∈ dr ∨ "dairy_free" ∈ dr then
    let conflicting := ff.filter (fun f => matchesAny DAIRY_FOODS f)
    if conflicting.isEmpty then []
    else
      [{ type := "dietary_warning", severity := "medium"
         issue := "User is lactose intolerant/dairy-free but lists dairy as favorites: " ++
           String.intercalate ", " conflicting
         resolution := "Suggest lactose-free or dairy-free alternatives" }]
  else []

/-- Section 2 of `validate_consultation_data` (lines 143-186): the macro
target checks, all gated on `if target_calories and target_protein_g and
target_fat_g and target_carbs_g:` (line 143).  Returns the pair of error
findings and warning findings appended inside that block. -/
def targetBlockFindings (dr : List String)
    (target_calories target_protein_g target_fat_g target_carbs_g weight_kg :
      Option ℚ) : List Finding × List Finding :=
  if qtruthy target_calories && qtruthy target_protein_g &&
      qtruthy target_fat_g && qtruthy target_carbs_g then
    let c := qval target_calories
    let p := qval target_protein_g
    let f := qval target_fat_g
    let cb := qval target_carbs_g
    let total_macro_cal := p * 4 + f * 9 + cb * 4
    let calorie_difference := |total_macro_cal - c|
    let mismatchErrors : List Finding :=
      if calorie_difference > c * 0.10 then
        [{ type := "macro_mismatch", severity := "high"
           issue := "Macro calories (" ++ toString total_macro_cal ++
             ") do not match target calories (" ++ toString c ++ ")"
           resolution := "Adjust macros to match calorie target. Difference: " ++
             toString calorie_difference ++ " calories" }]
      else []
    -- lines 161-176, nested on `if weight_kg:`
    let densityWarnings : List Finding :=
      if qtruthy weight_kg then
        let protein_per_kg := p / qval weight_kg
        if protein_per_kg < 0.8 then
          [{ type := "low_protein", severity := "medium"
             issue := "Protein target is very low (" ++ toString protein_per_kg ++
               "g/kg). Minimum recommended: 0.8g/kg"
             resolution := "Consider increasing protein to at least 0.8g per kg body weight" }]
        else if protein_per_kg > 3.0 then
          [{ type := "high_protein", severity := "medium"
             issue := "Protein target is very high (" ++ toString protein_per_kg ++
               "g/kg). Typical range: 1.6-2.5g/kg"
             resolution := "Verify this protein level is intentional and safe for the user" }]
        else []
      else []
    -- lines 179-186
    let difficultWarnings : List Finding :=
      if ("vegan" ∈ dr ∨ "vegetarian" ∈ dr) ∧ p > 150 then
        [{ type := "difficult_target", severity := "medium"
           issue := "Very high protein target (" ++ toString p ++
             "g) with vegan/vegetarian diet may be challenging"
           resolution := "May need protein supplements or extensive legume/tofu consumption" }]
      else []
    (mismatchErrors, densityWarnings ++ difficultWarnings)
  else ([], [])

/-- Section 3 (lines 192-210): goal consistency warnings, gated on
`if goal and target_calories and weight_kg:`. -/
def goalWarnings (goal : Option String) (target_calories weight_kg : Option ℚ) :
    List Finding :=
  if struthy goal && qtruthy target_calories && qtruthy weight_kg then
    let g := sval goal
    let c := qval target_calories
    let w := qval weight_kg
    if g = "weight_loss" then
      if c > w * 30 then
        [{ type := "goal_mismatch", severity := "low"
           issue := "Weight loss goal but calories (" ++ toString c ++
             ") seem high for weight (" ++ toString w ++ "kg)"
           resolution := "Verify the calorie target matches the weight loss goal" }]
      else []
    else if g = "muscle_gain" then
      if c < w * 25 then
        [{ type := "goal_mismatch", severity := "low"
           issue := "Muscle gain goal but calories (" ++ toString c ++
             ") may be too low"
           resolution := "Consider increasing calories for muscle growth" }]
      else []
    else []
  else []

/-- Section 4 (lines 217-234): volume warnings on the (lowercased)
restriction and avoid lists. -/
def volumeWarnings (dr fa : List String) : List Finding :=
  (if dr.length ≥ 4 then
    [{ type := "too_restrictive", severity := "medium"
       issue := "User has many dietary restrictions (" ++ toString dr.length ++
         ") which may limit recipe variety"
       resolution := "Consider prioritizing the most important restrictions if recipe options are limited" }]
   else []) ++
  (if fa.length ≥ 10 then
    [{ type := "too_many_avoided_foods", severity := "medium"
       issue := "User avoids many foods (" ++ toString fa.length ++
         ") which may make meal planning difficult"
       resolution := "Focus on core allergens/dislikes; consider if all are strictly necessary" }]
   else [])

/-- The `errors`, `warnings` and `suggestions` lists accumulated by
`validate_consultation_data` before the compile-results step, in the
append order of the source (lines 65-234). -/
def collectFindings (dietary_restrictions foods_to_avoid favorite_foods : List String)
    (target_calories target_protein_g target_fat_g target_carbs_g weight_kg : Option ℚ)
    (goal : Option String) : List Finding × List Finding × List String :=
  let dr := dietary_restrictions.map lowerStr
  let fa := foods_to_avoid.map lowerStr
  let ff := favorite_foods.map lowerStr
  let tb := targetBlockFindings dr target_calories target_protein_g
    target_fat_g target_carbs_g weight_kg
  (vegetarianMeatErrors dr ff ++ veganAnimalErrors dr ff ++ tb.1,
   glutenWarnings dr ff ++ dairyWarnings dr ff ++ tb.2 ++
     goalWarnings goal target_calories weight_kg ++ volumeWarnings dr fa,
   pescatarianSuggestions dr ff ++ veganVegetarianSuggestions dr)

/-- Result dict of `validate_consultation_data`; keys absent on a path are
the field defaults (e.g. the error path carries no `warnings` and no
`suggestions` key, and the warning/success paths attach `suggestions` only
when non-empty, which coincides with the empty-list default). -/
structure ValidationResult where
  status : String
  valid : Bool
  errors : List Finding := []
  error_count : ℕ := 0
  suggested_resolution : String := ""
  warnings : List Finding := []
  warning_count : ℕ := 0
  suggestions : List String := []
  message : String
deriving DecidableEq

/-- The compile-results step, src/tools/validation_tool.py lines 240-282. -/
def compileResult (errors warnings : List Finding) (suggestions : List String) :
    ValidationResult :=
  if ¬ errors.isEmpty then
    { status := "error", valid := false
      errors := errors
      error_count := errors.length
      suggested_resolution :=
        String.intercalate " OR " ((errors.map Finding.resolution).take 2)
      message := "Found " ++ toString errors.length ++ " critical contradiction(s): " ++
        String.intercalate "; " ((errors.map Finding.issue).take 2) }
  else if ¬ warnings.isEmpty then
    { status := "warning", valid := true
      warnings := warnings
      warning_count := warnings.length
      suggestions := suggestions
      message := "Found " ++ toString warnings.length ++
        " potential issue(s) that should be reviewed" }
  else
    { status := "success", valid := true
      suggestions := suggestions
      message := "All data is consistent - no contradictions found" }

/-- `validate_consultation_data`, src/tools/validation_tool.py lines 16-282.
List arguments model Python `None` and `[]` identically (the source
normalises with `or []`). -/
def validate_consultation_data
    (dietary_restrictions foods_to_avoid favorite_foods : List String)
    (target_calories target_protein_g target_fat_g target_carbs_g weight_kg : Option ℚ)
    (goal : Option String) : ValidationResult :=
  let t := collectFindings dietary_restrictions foods_to_avoid favorite_foods
    target_calories target_protein_g target_fat_g target_carbs_g weight_kg goal
  compileResult t.1 t.2.1 t.2.2

/-! ## Helper lemmas — rounding and calculator bounds -/

lemma abs_roundTo1_sub (x : ℚ) : |roundTo1 x - x| ≤ 1 / 20 := by
  have h := abs_sub_round (10 * x)
  rw [roundTo1]
  have e : ((round (10 * x) : ℤ) : ℚ) / 10 - x = -((10 * x - (round (10 * x) : ℤ)) / 10) := by
    ring
  rw [e, abs_neg, abs_div]
  have h10 : |(10 : ℚ)| = 10 := by norm_num
  rw [h10]
  linarith

lemma roundTo1_nonneg (x : ℚ) (hx : 0 ≤ x) : 0 ≤ roundTo1 x := by
  rw [roundTo1]
  have hz : (0 : ℤ) ≤ round (10 * x) := by
    rw [round_eq]
    exact Int.le_floor.mpr (by push_cast; linarith)
  apply div_nonneg _ (by norm_num)
  exact_mod_cast hz

lemma md_protein_per_kg_pos (goal : Goal) (act : String) :
    0 < md_protein_per_kg goal act := by
  rw [md_protein_per_kg]
  split_ifs <;> norm_num

lemma md_fat_percent_pos (goal : Goal) : 0 < md_fat_percent goal := by
  rw [md_fat_percent]
  split_ifs <;> norm_num

lemma kbju_min_calories_ge (g : String) : (1200 : ℚ) ≤ kbju_min_calories g := by
  rw [kbju_min_calories]
  split_ifs <;> norm_num

lemma kbju_target_calories_ge (w h : ℚ) (a : ℤ) (g act : String)
    (goal : Goal) (rate : GoalRate) :
    (1200 : ℚ) ≤ kbju_target_calories w h a g act goal rate := by
  rw [kbju_target_calories]
  split_ifs with hlt
  · exact kbju_min_calories_ge g
  · linarith [kbju_min_calories_ge g]

lemma md_protein_g_nonneg (w : ℚ) (goal : Goal) (act : String) (hw : 0 < w) :
    0 ≤ md_protein_g w goal act := by
  rw [md_protein_g]
  have := md_protein_per_kg_pos goal act
  nlinarith

lemma md_protein_cal_nonneg (w : ℚ) (goal : Goal) (act : String) (hw : 0 < w) :
    0 ≤ md_protein_cal w goal act := by
  rw [md_protein_cal]
  have := md_protein_g_nonneg w goal act hw
  linarith

lemma md_fat_g_nonneg (t w : ℚ) (goal : Goal) (hw : 0 < w) (ht : 0 < t) :
    0 ≤ md_fat_g t w goal := by
  rw [md_fat_g]
  split_ifs
  · rw [md_min_fat_g]; nlinarith
  · rw [md_fat_g0, md_fat_cal0]
    have := md_fat_percent_pos goal
    apply div_nonneg _ (by norm_num)
    nlinarith

lemma md_fat_cal_nonneg (t w : ℚ) (goal : Goal) (hw : 0 < w) (ht : 0 < t) :
    0 ≤ md_fat_cal t w goal := by
  rw [md_fat_cal]
  split_ifs
  · rw [md_min_fat_g]; nlinarith
  · rw [md_fat_cal0]
    have := md_fat_percent_pos goal
    nlinarith

lemma success_ne_error : ("success" : String) ≠ "error" := by decide

lemma warning_ne_error : ("warning" : String) ≠ "error" := by decide

lemma error_ne_success : ("error" : String) ≠ "success" := by decide

/-- The macro-distribution result reports "error" exactly when the
unrounded carbohydrate remainder is negative. -/
lemma cmd_status_error_iff (t w : ℚ) (goal : Goal) (act : String) :
    (calculate_macro_distribution t w goal act).status = "error" ↔
      md_carbs_g t w goal act < 0 := by
  rw [calculate_macro_distribution]
  split_ifs with hneg
  · exact iff_of_true rfl hneg
  · exact iff_of_false success_ne_error hneg

/-- Success form of `calculate_macro_distribution`. -/
lemma cmd_eq_of_not_neg (t w : ℚ) (goal : Goal) (act : String)
    (hc : ¬ md_carbs_g t w goal act < 0) :
    calculate_macro_distribution t w goal act =
      { status := "success"
        protein_g := roundTo1 (md_protein_g w goal act)
        fat_g := roundTo1 (md_fat_g t w goal)
        carbs_g := roundTo1 (md_carbs_g t w goal act)
        protein_cal := roundTo1 (md_protein_cal w goal act)
        fat_cal := roundTo1 (md_fat_cal t w goal)
        carbs_cal := roundTo1 (md_carbs_cal t w goal act)
        protein_percent := roundTo1 (md_protein_cal w goal act / t * 100)
        fat_percent := roundTo1 (md_fat_cal t w goal / t * 100)
        carbs_percent := roundTo1 (md_carbs_cal t w goal act / t * 100) } := by
  rw [calculate_macro_distribution, if_neg hc]

/-- Success form of `calculate_kbju`: when the input guards pass and the
carbohydrate remainder is non-negative, the returned dict is exactly the
success record of the source (lines 191-206). -/
lemma calculate_kbju_success_eq (w h : ℚ) (a : ℤ) (g act : String)
    (goal : Goal) (rate : GoalRate)
    (h1 : ¬ (w ≤ 0 ∨ h ≤ 0 ∨ a ≤ 0)) (h2 : ¬ a < 18)
    (h3 : ¬ md_carbs_g (kbju_target_calories w h a g act goal rate) w goal act < 0) :
    calculate_kbju w h a g act goal rate =
      { status := "success"
        bmr := roundTo1 (calculate_bmr w h a g)
        tdee := roundTo1 (kbju_tdee w h a g act)
        target_calories := roundTo1 (kbju_target_calories w h a g act goal rate)
        protein_g := roundTo1 (md_protein_g w goal act)
        fat_g := roundTo1 (md_fat_g (kbju_target_calories w h a g act goal rate) w goal)
        carbs_g := roundTo1 (md_carbs_g (kbju_target_calories w h a g act goal rate) w goal act)
        protein_cal := roundTo1 (md_protein_cal w goal act)
        fat_cal := roundTo1 (md_fat_cal (kbju_target_calories w h a g act goal rate) w goal)
        carbs_cal := roundTo1 (md_carbs_cal (kbju_target_calories w h a g act goal rate) w goal act)
        protein_percent := roundTo1 (md_protein_cal w goal act /
          kbju_target_calories w h a g act goal rate * 100)
        fat_percent := roundTo1 (md_fat_cal (kbju_target_calories w h a g act goal rate) w goal /
          kbju_target_calories w h a g act goal rate * 100)
        carbs_percent := roundTo1 (md_carbs_cal (kbju_target_calories w h a g act goal rate) w goal act /
          kbju_target_calories w h a g act goal rate * 100)
        notes := kbju_notes w h a g act goal rate } := by
  have hst : ¬ (calculate_macro_distribution
      (kbju_target_calories w h a g act goal rate) w goal act).status = "error" :=
    fun hh => h3 ((cmd_status_error_iff _ _ _ _).mp hh)
  rw [calculate_kbju, if_neg h1, if_neg h2, if_neg hst,
    cmd_eq_of_not_neg _ _ _ _ h3]

/-- From a "success" status, recover the three guard conditions. -/
lemma calculate_kbju_success_inv (w h : ℚ) (a : ℤ) (g act : String)
    (goal : Goal) (rate : GoalRate)
    (hs : (calculate_kbju w h a g act goal rate).status = "success") :
    ¬ (w ≤ 0 ∨ h ≤ 0 ∨ a ≤ 0) ∧ ¬ a < 18 ∧
      ¬ md_carbs_g (kbju_target_calories w h a g act goal rate) w goal act < 0 := by
  rw [calculate_kbju] at hs
  split_ifs at hs with h1 h2 h3
  · exact absurd hs error_ne_success
  · exact absurd hs error_ne_success
  · exact absurd hs error_ne_success
  · exact ⟨h1, h2, fun hh => h3 ((cmd_status_error_iff _ _ _ _).mpr hh)⟩

/-! ## Claim theorems -/

/-- C8: `calculate_bmr` implements the Mifflin-St Jeor formula
(10·weight + 6.25·height − 5·age + (5 if male else −161)) and is strictly
increasing in weight_kg for fixed height/age/gender, and strictly
increasing in height_cm for fixed weight/age/gender. -/
theorem bmr_mifflin_strictly_monotone :
    (∀ (w h : ℚ) (a : ℤ) (g : String),
      calculate_bmr w h a g =
        10 * w + 6.25 * h - 5 * (a : ℚ) + (if g = "male" then 5 else -161)) ∧
    (∀ (w1 w2 h : ℚ) (a : ℤ) (g : String), w1 < w2 →
      calculate_bmr w1 h a g < calculate_bmr w2 h a g) ∧
    (∀ (w h1 h2 : ℚ) (a : ℤ) (g : String), h1 < h2 →
      calculate_bmr w h1 a g < calculate_bmr w h2 a g) := by
  refine ⟨?_, ?_, ?_⟩
  · intro w h a g
    rw [calculate_bmr]
    split_ifs <;> ring
  · intro w1 w2 h a g hlt
    rw [calculate_bmr, calculate_bmr]
    split_ifs <;> linarith
  · intro w h1 h2 a g hlt
    rw [calculate_bmr, calculate_bmr]
    split_ifs <;> linarith

/-- Witness for C8 at concrete inputs. -/
theorem bmr_mifflin_strictly_monotone_witness :
    calculate_bmr 70 170 30 "male" < calculate_bmr 71 170 30 "male" ∧
    calculate_bmr 70 160 25 "female" < calculate_bmr 70 165 25 "female" :=
  ⟨bmr_mifflin_strictly_monotone.2.1 70 71 170 30 "male" (by norm_num),
   bmr_mifflin_strictly_monotone.2.2 70 160 165 25 "female" (by norm_num)⟩

/-- C1: whenever `calculate_kbju` returns status "success", the returned
protein_cal + fat_cal + carbs_cal equals the returned target_calories to
within 1 kcal, and the returned protein_g, fat_g, carbs_g, protein_cal,
fat_cal, carbs_cal are all non-negative. -/
theorem kbju_success_energy_balance (w h : ℚ) (a : ℤ) (g act : String)
    (goal : Goal) (rate : GoalRate)
    (hs : (calculate_kbju w h a g act goal rate).status = "success") :
    |(calculate_kbju w h a g act goal rate).protein_cal +
        (calculate_kbju w h a g act goal rate).fat_cal +
        (calculate_kbju w h a g act goal rate).carbs_cal -
        (calculate_kbju w h a g act goal rate).target_calories| ≤ 1 ∧
    0 ≤ (calculate_kbju w h a g act goal rate).protein_g ∧
    0 ≤ (calculate_kbju w h a g act goal rate).fat_g ∧
    0 ≤ (calculate_kbju w h a g act goal rate).carbs_g ∧
    0 ≤ (calculate_kbju w h a g act goal rate).protein_cal ∧
    0 ≤ (calculate_kbju w h a g act goal rate).fat_cal ∧
    0 ≤ (calculate_kbju w h a g act goal rate).carbs_cal := by
  obtain ⟨h1, h2, h3⟩ := calculate_kbju_success_inv w h a g act goal rate hs
  push_neg at h1
  obtain ⟨hw, hh, ha⟩ := h1
  rw [calculate_kbju_success_eq w h a g act goal rate
    (by push_neg; exact ⟨hw, hh, ha⟩) h2 h3]
  have ht : (0 : ℚ) < kbju_target_calories w h a g act goal rate :=
    lt_of_lt_of_le (by norm_num) (kbju_target_calories_ge w h a g act goal rate)
  have hcc : 0 ≤ md_carbs_cal (kbju_target_calories w h a g act goal rate) w goal act := by
    push_neg at h3
    rw [md_carbs_g] at h3
    linarith
  have hsumeq : md_carbs_cal (kbju_target_calories w h a g act goal rate) w goal act =
      kbju_target_calories w h a g act goal rate - md_protein_cal w goal act -
        md_fat_cal (kbju_target_calories w h a g act goal rate) w goal := rfl
  have b1 := abs_le.mp (abs_roundTo1_sub (md_protein_cal w goal act))
  have b2 := abs_le.mp (abs_roundTo1_sub
    (md_fat_cal (kbju_target_calories w h a g act goal rate) w goal))
  have b3 := abs_le.mp (abs_roundTo1_sub
    (md_carbs_cal (kbju_target_calories w h a g act goal rate) w goal act))
  have b4 := abs_le.mp (abs_roundTo1_sub (kbju_target_calories w h a g act goal rate))
  refine ⟨?_, ?_, ?_, ?_, ?_, ?_, ?_⟩
  · rw [abs_le]
    constructor <;> [linarith [hsumeq, b1.1, b2.1, b3.1, b4.2];
      linarith [hsumeq, b1.2, b2.2, b3.2, b4.1]]
  · exact roundTo1_nonneg _ (md_protein_g_nonneg w goal act hw)
  · exact roundTo1_nonneg _ (md_fat_g_nonneg _ w goal hw ht)
  · exact roundTo1_nonneg _ (by rw [md_carbs_g]; push_neg at h3; exact h3)
  · exact roundTo1_nonneg _ (md_protein_cal_nonneg w goal act hw)
  · exact roundTo1_nonneg _ (md_fat_cal_nonneg _ w goal hw ht)
  · exact roundTo1_nonneg _ hcc

/-- Witness for C1: a concrete successful calculation
(80 kg, 180 cm, 30 y, male, moderately active, maintenance). -/
theorem kbju_success_energy_balance_witness :
    (calculate_kbju 80 180 30 "male" "moderately_active"
      Goal.maintenance GoalRate.moderate).status = "success" ∧
    (|(calculate_kbju 80 180 30 "male" "moderately_active"
        Goal.maintenance GoalRate.moderate).protein_cal +
        (calculate_kbju 80 180 30 "male" "moderately_active"
          Goal.maintenance GoalRate.moderate).fat_cal +
        (calculate_kbju 80 180 30 "male" "moderately_active"
          Goal.maintenance GoalRate.moderate).carbs_cal -
        (calculate_kbju 80 180 30 "male" "moderately_active"
          Goal.maintenance GoalRate.moderate).target_calories| ≤ 1 ∧
      0 ≤ (calculate_kbju 80 180 30 "male" "moderately_active"
        Goal.maintenance GoalRate.moderate).protein_g ∧
      0 ≤ (calculate_kbju 80 180 30 "male" "moderately_active"
        Goal.maintenance GoalRate.moderate).fat_g ∧
      0 ≤ (calculate_kbju 80 180 30 "male" "moderately_active"
        Goal.maintenance GoalRate.moderate).carbs_g ∧
      0 ≤ (calculate_kbju 80 180 30 "male" "moderately_active"
        Goal.maintenance GoalRate.moderate).protein_cal ∧
      0 ≤ (calculate_kbju 80 180 30 "male" "moderately_active"
        Goal.maintenance GoalRate.moderate).fat_cal ∧
      0 ≤ (calculate_kbju 80 180 30 "male" "moderately_active"
        Goal.maintenance GoalRate.moderate).carbs_cal) := by
  have hs : (calculate_kbju 80 180 30 "male" "moderately_active"
      Goal.maintenance GoalRate.moderate).status = "success" := by
    rw [calculate_kbju_success_eq 80 180 30 "male" "moderately_active"
      Goal.maintenance GoalRate.moderate (by norm_num) (by norm_num)
      (by norm_num +decide [md_carbs_g, md_carbs_cal, md_protein_cal, md_protein_g,
        md_protein_per_kg, md_fat_cal, md_fat_cal0, md_fat_g0, md_min_fat_g,
        md_fat_percent, kbju_target_calories, kbju_target_raw, kbju_tdee,
        calculate_bmr, get_activity_multiplier, goal_adjustment,
        kbju_min_calories])]
  exact ⟨hs, kbju_success_energy_balance 80 180 30 "male" "moderately_active"
    Goal.maintenance GoalRate.moderate hs⟩

/-- Error form of `calculate_macro_distribution`. -/
lemma cmd_eq_of_neg (t w : ℚ) (goal : Goal) (act : String)
    (hc : md_carbs_g t w goal act < 0) :
    calculate_macro_distribution t w goal act =
      { status := "error"
        error_message := "Unable to fit macros within calorie target. Protein and fat requirements exceed total calories." } := by
  rw [calculate_macro_distribution, if_pos hc]

/-- C2: whenever the unrounded remainder carbs_cal = target_calories −
protein_cal − fat_cal is negative, `calculate_kbju` returns status "error"
(never a success with clamped carbs); if moreover the input guards pass,
the error is precisely the infeasible-macro message. -/
theorem kbju_infeasible_reports_error (w h : ℚ) (a : ℤ) (g act : String)
    (goal : Goal) (rate : GoalRate)
    (hneg : md_carbs_cal (kbju_target_calories w h a g act goal rate) w goal act < 0) :
    (calculate_kbju w h a g act goal rate).status = "error" ∧
    (calculate_kbju w h a g act goal rate).status ≠ "success" ∧
    (¬ (w ≤ 0 ∨ h ≤ 0 ∨ a ≤ 0) → ¬ a < 18 →
      (calculate_kbju w h a g act goal rate).error_message =
        "Unable to fit macros within calorie target. Protein and fat requirements exceed total calories.") := by
  have hg : md_carbs_g (kbju_target_calories w h a g act goal rate) w goal act < 0 := by
    rw [md_carbs_g]; linarith
  rw [calculate_kbju]
  split_ifs with h1 h2 h3
  · exact ⟨rfl, error_ne_success, fun hn _ => absurd h1 hn⟩
  · exact ⟨rfl, error_ne_success, fun _ hn => absurd h2 hn⟩
  · refine ⟨rfl, error_ne_success, fun _ _ => ?_⟩
    show (calculate_macro_distribution
      (kbju_target_calories w h a g act goal rate) w goal act).error_message = _
    rw [cmd_eq_of_neg _ _ _ _ hg]
  · exact absurd ((cmd_status_error_iff _ _ _ _).mpr hg) h3

/-- Witness for C2: 90 kg, 150 cm, 70 y female, sedentary, aggressive
weight loss — the floored 1200 kcal target cannot fit 720 kcal of protein
plus 648 kcal of floored fat. -/
theorem kbju_infeasible_reports_error_witness :
    md_carbs_cal (kbju_target_calories 90 150 70 "female" "sedentary"
        Goal.weight_loss GoalRate.aggressive) 90 Goal.weight_loss "sedentary" < 0 ∧
    (calculate_kbju 90 150 70 "female" "sedentary"
        Goal.weight_loss GoalRate.aggressive).status = "error" ∧
    (calculate_kbju 90 150 70 "female" "sedentary"
        Goal.weight_loss GoalRate.aggressive).error_message =
      "Unable to fit macros within calorie target. Protein and fat requirements exceed total calories." := by
  have hneg : md_carbs_cal (kbju_target_calories 90 150 70 "female" "sedentary"
      Goal.weight_loss GoalRate.aggressive) 90 Goal.weight_loss "sedentary" < 0 := by
    norm_num +decide [md_carbs_cal, md_protein_cal, md_protein_g,
      md_protein_per_kg, md_fat_cal, md_fat_cal0, md_fat_g0, md_min_fat_g,
      md_fat_percent, kbju_target_calories, kbju_target_raw, kbju_tdee,
      calculate_bmr, get_activity_multiplier, goal_adjustment,
      kbju_min_calories]
  have main := kbju_infeasible_reports_error 90 150 70 "female" "sedentary"
    Goal.weight_loss GoalRate.aggressive hneg
  exact ⟨hneg, main.1, main.2.2 (by norm_num) (by norm_num)⟩

lemma roundTo1_min_calories (g : String) :
    roundTo1 (kbju_min_calories g) = kbju_min_calories g := by
  rw [kbju_min_calories]
  split_ifs <;> (rw [roundTo1, round_eq]; norm_num [Int.floor_eq_iff])

/-- C6 (amended): for valid inputs whose tdee + goal adjustment is below
the sex-specific minimum, *if the call succeeds*, the returned
target_calories is exactly the minimum (1200 female / 1500 otherwise) and
the notes record the clamp; the clamp itself is not an error, but the call
can still fail afterwards with the infeasible-macro error (see the
counterexample). -/
theorem calorie_floor_clamps_on_success (w h : ℚ) (a : ℤ) (g act : String)
    (goal : Goal) (rate : GoalRate)
    (hw : 0 < w) (hh : 0 < h) (ha : 18 ≤ a)
    (hlow : kbju_target_raw w h a g act goal rate < kbju_min_calories g)
    (hs : (calculate_kbju w h a g act goal rate).status = "success") :
    (calculate_kbju w h a g act goal rate).target_calories = kbju_min_calories g ∧
    (calculate_kbju w h a g act goal rate).notes =
      "Calories adjusted to safe minimum (" ++ toString (kbju_min_calories g) ++
        " kcal)" := by
  obtain ⟨h1, h2, h3⟩ := calculate_kbju_success_inv w h a g act goal rate hs
  rw [calculate_kbju_success_eq w h a g act goal rate h1 h2 h3]
  constructor
  · show roundTo1 (kbju_target_calories w h a g act goal rate) = kbju_min_calories g
    rw [kbju_target_calories, if_pos hlow, roundTo1_min_calories]
  · show kbju_notes w h a g act goal rate = _
    rw [kbju_notes, if_pos hlow]

/-- Counterexample to C6 as stated: 100 kg, 160 cm, 80 y female, sedentary,
aggressive weight loss is a valid input whose raw target (976.8 kcal) is
below the 1200 kcal floor, yet the call returns an error (the floored
target cannot fit protein + minimum fat), not a success with the clamp
note. -/
theorem calorie_floor_counterexample :
    (0 : ℚ) < 100 ∧ (0 : ℚ) < 160 ∧ (18 : ℤ) ≤ 80 ∧
    kbju_target_raw 100 160 80 "female" "sedentary"
        Goal.weight_loss GoalRate.aggressive < kbju_min_calories "female" ∧
    (calculate_kbju 100 160 80 "female" "sedentary"
        Goal.weight_loss GoalRate.aggressive).status = "error" := by
  have hneg : md_carbs_g (kbju_target_calories 100 160 80 "female" "sedentary"
      Goal.weight_loss GoalRate.aggressive) 100 Goal.weight_loss "sedentary" < 0 := by
    norm_num +decide [md_carbs_g, md_carbs_cal, md_protein_cal, md_protein_g,
      md_protein_per_kg, md_fat_cal, md_fat_cal0, md_fat_g0, md_min_fat_g,
      md_fat_percent, kbju_target_calories, kbju_target_raw, kbju_tdee,
      calculate_bmr, get_activity_multiplier, goal_adjustment,
      kbju_min_calories]
  refine ⟨by norm_num, by norm_num, by norm_num, ?_, ?_⟩
  · norm_num +decide [kbju_target_raw, kbju_tdee, calculate_bmr,
      get_activity_multiplier, goal_adjustment, kbju_min_calories]
  · rw [calculate_kbju, if_neg (by norm_num), if_neg (by norm_num),
      if_pos ((cmd_status_error_iff _ _ _ _).mpr hneg)]

/-- Witness for C6 (amended): 40 kg, 150 cm, 60 y female, sedentary,
maintenance — raw target 1051.8 kcal is clamped to 1200 and the macro
split succeeds. -/
theorem calorie_floor_clamps_on_success_witness :
    kbju_target_raw 40 150 60 "female" "sedentary"
        Goal.maintenance GoalRate.moderate < kbju_min_calories "female" ∧
    (calculate_kbju 40 150 60 "female" "sedentary"
        Goal.maintenance GoalRate.moderate).status = "success" ∧
    (calculate_kbju 40 150 60 "female" "sedentary"
        Goal.maintenance GoalRate.moderate).target_calories =
      kbju_min_calories "female" ∧
    (calculate_kbju 40 150 60 "female" "sedentary"
        Goal.maintenance GoalRate.moderate).notes =
      "Calories adjusted to safe minimum (" ++
        toString (kbju_min_calories "female") ++ " kcal)" := by
  have hlow : kbju_target_raw 40 150 60 "female" "sedentary"
      Goal.maintenance GoalRate.moderate < kbju_min_calories "female" := by
    norm_num +decide [kbju_target_raw, kbju_tdee, calculate_bmr,
      get_activity_multiplier, goal_adjustment, kbju_min_calories]
  have hs : (calculate_kbju 40 150 60 "female" "sedentary"
      Goal.maintenance GoalRate.moderate).status = "success" := by
    rw [calculate_kbju_success_eq 40 150 60 "female" "sedentary"
      Goal.maintenance GoalRate.moderate (by norm_num) (by norm_num)
      (by norm_num +decide [md_carbs_g, md_carbs_cal, md_protein_cal, md_protein_g,
        md_protein_per_kg, md_fat_cal, md_fat_cal0, md_fat_g0, md_min_fat_g,
        md_fat_percent, kbju_target_calories, kbju_target_raw, kbju_tdee,
        calculate_bmr, get_activity_multiplier, goal_adjustment,
        kbju_min_calories])]
  have main := calorie_floor_clamps_on_success 40 150 60 "female" "sedentary"
    Goal.maintenance GoalRate.moderate (by norm_num) (by norm_num)
    (by norm_num) hlow hs
  exact ⟨hlow, hs, main.1, main.2⟩

/-! ## Helper lemmas — validator -/

lemma validate_def (dr fa ff : List String)
    (tc tp tf tcb w : Option ℚ) (goal : Option String) :
    validate_consultation_data dr fa ff tc tp tf tcb w goal =
      compileResult (collectFindings dr fa ff tc tp tf tcb w goal).1
        (collectFindings dr fa ff tc tp tf tcb w goal).2.1
        (collectFindings dr fa ff tc tp tf tcb w goal).2.2 := rfl

lemma compileResult_of_errors_ne (E W : List Finding) (S : List String)
    (hE : E ≠ []) :
    compileResult E W S =
      { status := "error", valid := false
        errors := E
        error_count := E.length
        suggested_resolution :=
          String.intercalate " OR " ((E.map Finding.resolution).take 2)
        message := "Found " ++ toString E.length ++ " critical contradiction(s): " ++
          String.intercalate "; " ((E.map Finding.issue).take 2) } := by
  rw [compileResult, if_pos]
  simp [List.isEmpty_iff, hE]

lemma compileResult_of_warnings_ne (E W : List Finding) (S : List String)
    (hE : E = []) (hW : W ≠ []) :
    compileResult E W S =
      { status := "warning", valid := true
        warnings := W
        warning_count := W.length
        suggestions := S
        message := "Found " ++ toString W.length ++
          " potential issue(s) that should be reviewed" } := by
  rw [compileResult, if_neg, if_pos]
  · simp [List.isEmpty_iff, hW]
  · simp [List.isEmpty_iff, hE]

lemma compileResult_of_clean (E W : List Finding) (S : List String)
    (hE : E = []) (hW : W = []) :
    compileResult E W S =
      { status := "success", valid := true
        suggestions := S
        message := "All data is consistent - no contradictions found" } := by
  rw [compileResult, if_neg, if_neg]
  · simp [List.isEmpty_iff, hW]
  · simp [List.isEmpty_iff, hE]

/-- C5: the returned status is "error" if any error finding was
accumulated, else "warning" if any warning was accumulated, else
"success"; `valid` is false exactly when the status is "error"; the
accumulated suggestions never influence the status. -/
theorem validator_status_aggregation (dr fa ff : List String)
    (tc tp tf tcb w : Option ℚ) (goal : Option String) :
    ((validate_consultation_data dr fa ff tc tp tf tcb w goal).status =
      if (collectFindings dr fa ff tc tp tf tcb w goal).1 = [] then
        (if (collectFindings dr fa ff tc tp tf tcb w goal).2.1 = [] then
          "success" else "warning")
      else "error") ∧
    ((validate_consultation_data dr fa ff tc tp tf tcb w goal).valid = false ↔
      (validate_consultation_data dr fa ff tc tp tf tcb w goal).status = "error") ∧
    ((collectFindings dr fa ff tc tp tf tcb w goal).1 ≠ [] →
      (collectFindings dr fa ff tc tp tf tcb w goal).2.1 ≠ [] →
      (validate_consultation_data dr fa ff tc tp tf tcb w goal).status = "error") := by
  rw [validate_def]
  rcases hE : (collectFindings dr fa ff tc tp tf tcb w goal).1 with _ | ⟨e, E⟩
  · rcases hW : (collectFindings dr fa ff tc tp tf tcb w goal).2.1 with _ | ⟨x, W⟩
    · rw [compileResult_of_clean _ _ _ rfl rfl]
      refine ⟨by simp, by simp +decide, fun hc _ => absurd rfl hc⟩
    · rw [compileResult_of_warnings_ne _ _ _ rfl (by simp)]
      refine ⟨by simp, by simp +decide, fun hc _ => absurd rfl hc⟩
  · rw [compileResult_of_errors_ne _ _ _ (by simp)]
    refine ⟨by simp, by simp, fun _ _ => rfl⟩

/-- C9: on the "error" path the returned dict carries no suggestions (any
accumulated ones are dropped); on the non-error paths the returned
suggestions are exactly the accumulated ones. -/
theorem error_status_drops_suggestions (dr fa ff : List String)
    (tc tp tf tcb w : Option ℚ) (goal : Option String) :
    ((validate_consultation_data dr fa ff tc tp tf tcb w goal).status = "error" →
      (validate_consultation_data dr fa ff tc tp tf tcb w goal).suggestions = []) ∧
    ((validate_consultation_data dr fa ff tc tp tf tcb w goal).status ≠ "error" →
      (validate_consultation_data dr fa ff tc tp tf tcb w goal).suggestions =
        (collectFindings dr fa ff tc tp tf tcb w goal).2.2) := by
  rw [validate_def]
  rcases hE : (collectFindings dr fa ff tc tp tf tcb w goal).1 with _ | ⟨e, E⟩
  · rcases hW : (collectFindings dr fa ff tc tp tf tcb w goal).2.1 with _ | ⟨x, W⟩
    · rw [compileResult_of_clean _ _ _ rfl rfl]
      exact ⟨fun hc => absurd hc success_ne_error, fun _ => rfl⟩
    · rw [compileResult_of_warnings_ne _ _ _ rfl (by simp)]
      exact ⟨fun hc => absurd hc warning_ne_error, fun _ => rfl⟩
  · rw [compileResult_of_errors_ne _ _ _ (by simp)]
    exact ⟨fun _ => rfl, fun hc => absurd rfl hc⟩

/-- Witness for C9: vegetarian with favorites ["beef", "salmon"] produces
an error (beef) while a pescatarian suggestion (salmon) was accumulated;
the returned dict has status "error" and no suggestions, although the
accumulated suggestion list is non-empty. -/
theorem error_status_drops_suggestions_witness :
    (validate_consultation_data ["vegetarian"] [] ["beef", "salmon"]
        none none none none none none).status = "error" ∧
    (validate_consultation_data ["vegetarian"] [] ["beef", "salmon"]
        none none none none none none).suggestions = [] ∧
    (collectFindings ["vegetarian"] [] ["beef", "salmon"]
        none none none none none none).2.2 ≠ [] := by
  have hs : (validate_consultation_data ["vegetarian"] [] ["beef", "salmon"]
      none none none none none none).status = "error" := by decide
  exact ⟨hs, (error_status_drops_suggestions ["vegetarian"] [] ["beef", "salmon"]
    none none none none none none).1 hs, by decide⟩

lemma tb_fst_of_mismatch (dr : List String) (c p f cb : ℚ) (w : Option ℚ)
    (hc : c ≠ 0) (hp : p ≠ 0) (hf : f ≠ 0) (hcb : cb ≠ 0)
    (hgap : |p * 4 + f * 9 + cb * 4 - c| > c * 0.10) :
    (targetBlockFindings dr (some c) (some p) (some f) (some cb) w).1 =
      [{ type := "macro_mismatch", severity := "high"
         issue := "Macro calories (" ++ toString (p * 4 + f * 9 + cb * 4) ++
           ") do not match target calories (" ++ toString c ++ ")"
         resolution := "Adjust macros to match calorie target. Difference: " ++
           toString |p * 4 + f * 9 + cb * 4 - c| ++ " calories" }] := by
  rw [targetBlockFindings, if_pos (by simp [qtruthy, hc, hp, hf, hcb])]
  simp only [qval]
  rw [if_pos hgap]

/-- C4: when all four numeric targets are present (truthy), a macro/calorie
gap exceeding 10% of target_calories yields status "error", valid = false,
and a "macro_mismatch" error finding; witnessed below by
target_calories=2000, protein=50, fat=50, carbs=50. -/
theorem mismatch_reports_error (dr fa ff : List String) (c p f cb : ℚ)
    (w : Option ℚ) (goal : Option String)
    (hc : c ≠ 0) (hp : p ≠ 0) (hf : f ≠ 0) (hcb : cb ≠ 0)
    (hgap : |p * 4 + f * 9 + cb * 4 - c| > 0.10 * c) :
    (validate_consultation_data dr fa ff (some c) (some p) (some f) (some cb)
      w goal).status = "error" ∧
    (validate_consultation_data dr fa ff (some c) (some p) (some f) (some cb)
      w goal).valid = false ∧
    ∃ fd ∈ (validate_consultation_data dr fa ff (some c) (some p) (some f)
      (some cb) w goal).errors, fd.type = "macro_mismatch" := by
  have hgap' : |p * 4 + f * 9 + cb * 4 - c| > c * 0.10 := by
    rw [mul_comm c 0.10]; exact hgap
  have htb := tb_fst_of_mismatch (dr.map lowerStr) c p f cb w hc hp hf hcb hgap'
  have hE : (collectFindings dr fa ff (some c) (some p) (some f) (some cb)
      w goal).1 =
      vegetarianMeatErrors (dr.map lowerStr) (ff.map lowerStr) ++
      veganAnimalErrors (dr.map lowerStr) (ff.map lowerStr) ++
      (targetBlockFindings (dr.map lowerStr) (some c) (some p) (some f)
        (some cb) w).1 := rfl
  have hmem : (Finding.mk "macro_mismatch" "high"
        ("Macro calories (" ++ toString (p * 4 + f * 9 + cb * 4) ++
          ") do not match target calories (" ++ toString c ++ ")")
        ("Adjust macros to match calorie target. Difference: " ++
          toString |p * 4 + f * 9 + cb * 4 - c| ++ " calories")) ∈
      (collectFindings dr fa ff (some c) (some p) (some f) (some cb) w goal).1 := by
    rw [hE, htb]
    exact List.mem_append_right _ (List.mem_singleton_self _)
  have hne := List.ne_nil_of_mem hmem
  rw [validate_def, compileResult_of_errors_ne _ _ _ hne]
  exact ⟨rfl, rfl, ⟨_, hmem, rfl⟩⟩

/-- Witness for C4: the concrete instance of the claim
(2000 kcal target, 50 g protein, 50 g fat, 50 g carbs: 850 macro kcal). -/
theorem mismatch_reports_error_witness :
    |(50 : ℚ) * 4 + 50 * 9 + 50 * 4 - 2000| > 0.10 * 2000 ∧
    (validate_consultation_data [] [] [] (some 2000) (some 50) (some 50)
      (some 50) none none).status = "error" ∧
    (validate_consultation_data [] [] [] (some 2000) (some 50) (some 50)
      (some 50) none none).valid = false ∧
    ∃ fd ∈ (validate_consultation_data [] [] [] (some 2000) (some 50)
      (some 50) (some 50) none none).errors, fd.type = "macro_mismatch" := by
  have hgap : |(50 : ℚ) * 4 + 50 * 9 + 50 * 4 - 2000| > 0.10 * 2000 := by
    norm_num
  have main := mismatch_reports_error [] [] [] 2000 50 50 50 none none
    (by norm_num) (by norm_num) (by norm_num) (by norm_num) hgap
  exact ⟨hgap, main.1, main.2.1, main.2.2⟩

lemma tb_snd_difficult_mem (dr : List String) (c p f cb : ℚ) (w : Option ℚ)
    (hc : c ≠ 0) (hp : p ≠ 0) (hf : f ≠ 0) (hcb : cb ≠ 0)
    (hveg : "vegan" ∈ dr ∨ "vegetarian" ∈ dr) (hp150 : p > 150) :
    (Finding.mk "difficult_target" "medium"
        ("Very high protein target (" ++ toString p ++
          "g) with vegan/vegetarian diet may be challenging")
        "May need protein supplements or extensive legume/tofu consumption") ∈
      (targetBlockFindings dr (some c) (some p) (some f) (some cb) w).2 := by
  rw [targetBlockFindings, if_pos (by simp [qtruthy, hc, hp, hf, hcb])]
  simp only [qval]
  exact List.mem_append_right _
    (by rw [if_pos ⟨hveg, hp150⟩]; exact List.mem_singleton_self _)

/-- Counterexample to C3 as stated: with restrictions ["vegan"] and
target_protein_g = 200 but no other numeric targets, the source skips the
whole macro-target block (line 143), so no "difficult_target" warning is
produced — the rule does depend on the presence of the other numeric
targets. -/
theorem difficult_target_counterexample :
    "vegan" ∈ (["vegan"] : List String).map lowerStr ∧ (200 : ℚ) > 150 ∧
    (validate_consultation_data ["vegan"] [] [] none (some 200) none none
      none none).status = "success" ∧
    (validate_consultation_data ["vegan"] [] [] none (some 200) none none
      none none).warnings = [] := by
  exact ⟨by decide, by norm_num, by decide, by decide⟩

/-- C3 (amended): the "difficult_target" warning fires for vegan/vegetarian
restrictions with target_protein_g > 150 *only inside the all-four-targets
block*: when target_calories, target_protein_g, target_fat_g and
target_carbs_g are all present and non-zero, the accumulated warnings
contain a "difficult_target" finding, and it is surfaced in the returned
dict whenever the call does not end in the "error" status. -/
theorem difficult_target_needs_all_targets (dr fa ff : List String)
    (c p f cb : ℚ) (w : Option ℚ) (goal : Option String)
    (hc : c ≠ 0) (hp : p ≠ 0) (hf : f ≠ 0) (hcb : cb ≠ 0)
    (hveg : "vegan" ∈ dr.map lowerStr ∨ "vegetarian" ∈ dr.map lowerStr)
    (hp150 : p > 150) :
    (∃ fd ∈ (collectFindings dr fa ff (some c) (some p) (some f) (some cb)
      w goal).2.1, fd.type = "difficult_target") ∧
    ((validate_consultation_data dr fa ff (some c) (some p) (some f) (some cb)
        w goal).status ≠ "error" →
      ∃ fd ∈ (validate_consultation_data dr fa ff (some c) (some p) (some f)
        (some cb) w goal).warnings, fd.type = "difficult_target") := by
  have hmem0 := tb_snd_difficult_mem (dr.map lowerStr) c p f cb w
    hc hp hf hcb hveg hp150
  have hW : (collectFindings dr fa ff (some c) (some p) (some f) (some cb)
      w goal).2.1 =
      glutenWarnings (dr.map lowerStr) (ff.map lowerStr) ++
      dairyWarnings (dr.map lowerStr) (ff.map lowerStr) ++
      (targetBlockFindings (dr.map lowerStr) (some c) (some p) (some f)
        (some cb) w).2 ++
      goalWarnings goal (some c) w ++
      volumeWarnings (dr.map lowerStr) (fa.map lowerStr) := rfl
  have hmem : (Finding.mk "difficult_target" "medium"
      ("Very high protein target (" ++ toString p ++
        "g) with vegan/vegetarian diet may be challenging")
      "May need protein supplements or extensive legume/tofu consumption") ∈
      (collectFindings dr fa ff (some c) (some p) (some f) (some cb)
        w goal).2.1 := by
    rw [hW]
    exact List.mem_append_left _
      (List.mem_append_left _ (List.mem_append_right _ hmem0))
  refine ⟨⟨_, hmem, rfl⟩, fun hne => ?_⟩
  have hE : (collectFindings dr fa ff (some c) (some p) (some f) (some cb)
      w goal).1 = [] := by
    by_contra hEne
    rw [validate_def, compileResult_of_errors_ne _ _ _ hEne] at hne
    exact hne rfl
  have hWne := List.ne_nil_of_mem hmem
  rw [validate_def, compileResult_of_warnings_ne _ _ _ hE hWne]
  exact ⟨_, hmem, rfl⟩

/-- Witness for C3 (amended): vegan, protein 160 g, with consistent
targets 2000 kcal / 160 g protein / 60 g fat / 200 g carbs present. -/
theorem difficult_target_needs_all_targets_witness :
    ((2000 : ℚ) ≠ 0 ∧ (160 : ℚ) ≠ 0 ∧ (60 : ℚ) ≠ 0 ∧ (200 : ℚ) ≠ 0 ∧
      "vegan" ∈ (["vegan"] : List String).map lowerStr ∧ (160 : ℚ) > 150) ∧
    (∃ fd ∈ (collectFindings ["vegan"] [] [] (some 2000) (some 160) (some 60)
      (some 200) none none).2.1, fd.type = "difficult_target") ∧
    ((validate_consultation_data ["vegan"] [] [] (some 2000) (some 160)
        (some 60) (some 200) none none).status ≠ "error" →
      ∃ fd ∈ (validate_consultation_data ["vegan"] [] [] (some 2000)
        (some 160) (some 60) (some 200) none none).warnings,
        fd.type = "difficult_target") := by
  have main := difficult_target_needs_all_targets ["vegan"] [] [] 2000 160 60
    200 none none (by norm_num) (by norm_num) (by norm_num) (by norm_num)
    (Or.inl (by decide)) (by norm_num)
  exact ⟨⟨by norm_num, by norm_num, by norm_num, by norm_num, by decide,
    by norm_num⟩, main.1, main.2⟩

lemma hasSub_append_right (n b : List Char) (h : hasSub n b = true) :
    ∀ a : List Char, hasSub n (a ++ b) = true := by
  intro a
  induction a with
  | nil => simpa
  | cons c t ih =>
    show hasSub n (c :: (t ++ b)) = true
    simp only [hasSub, Bool.or_eq_true]
    exact Or.inr ih

lemma strIn_append_right (n a b : String) (h : strIn n b = true) :
    strIn n (a ++ b) = true := by
  rw [strIn, String.data_append]
  exact hasSub_append_right _ _ (by rw [strIn] at h; exact h) _

/-- C7: a "vegetarian" restriction together with favorites that match the
SEAFOOD keyword set (and none of the MEAT keywords, i.e. pure seafood
items like "salmon") produces a pescatarian suggestion only: status
"success", no error or warning findings, and a suggestion mentioning
"pescatarian".  Instantiated at favorites ["salmon"] by the witness. -/
theorem vegetarian_seafood_suggestion (ff : List String)
    (hmeat : ∀ f ∈ ff, matchesAny MEAT_FOODS (lowerStr f) = false)
    (hsea : ∃ f ∈ ff, matchesAny SEAFOOD (lowerStr f) = true) :
    (validate_consultation_data ["vegetarian"] [] ff none none none none
      none none).status = "success" ∧
    (validate_consultation_data ["vegetarian"] [] ff none none none none
      none none).errors = [] ∧
    (validate_consultation_data ["vegetarian"] [] ff none none none none
      none none).warnings = [] ∧
    ∃ s ∈ (validate_consultation_data ["vegetarian"] [] ff none none none
      none none none).suggestions, strIn "pescatarian" s = true := by
  have hdr : List.map lowerStr ["vegetarian"] = ["vegetarian"] := by decide
  have h1 : vegetarianMeatErrors ["vegetarian"] (ff.map lowerStr) = [] := by
    rw [vegetarianMeatErrors, if_pos (List.mem_singleton_self _)]
    have hfil : (ff.map lowerStr).filter (fun f => matchesAny MEAT_FOODS f) = [] := by
      rw [List.filter_eq_nil_iff]
      intro x hx
      obtain ⟨f, hf, rfl⟩ := List.mem_map.mp hx
      simp [hmeat f hf]
    simp [hfil]
  have h2 : veganAnimalErrors ["vegetarian"] (ff.map lowerStr) = [] := by
    rw [veganAnimalErrors, if_neg (by decide)]
  have h3 : targetBlockFindings ["vegetarian"] none none none none none =
      (([] : List Finding), ([] : List Finding)) := rfl
  have h4 : glutenWarnings ["vegetarian"] (ff.map lowerStr) = [] := by
    rw [glutenWarnings, if_neg (by decide)]
  have h5 : dairyWarnings ["vegetarian"] (ff.map lowerStr) = [] := by
    rw [dairyWarnings, if_neg (by decide)]
  have h6 : goalWarnings none none none = [] := rfl
  have h7 : volumeWarnings ["vegetarian"] (List.map lowerStr []) = [] := by decide
  obtain ⟨f0, hf0, hm0⟩ := hsea
  have hmemf : lowerStr f0 ∈ (ff.map lowerStr).filter
      (fun f => matchesAny SEAFOOD f) :=
    List.mem_filter.mpr ⟨List.mem_map_of_mem _ hf0, by simp [hm0]⟩
  have h8 : pescatarianSuggestions ["vegetarian"] (ff.map lowerStr) =
      ["User likes seafood (" ++ String.intercalate ", "
          ((ff.map lowerStr).filter (fun f => matchesAny SEAFOOD f)) ++
        ") - consider asking if they are pescatarian instead of vegetarian"] := by
    rw [pescatarianSuggestions, if_pos (List.mem_singleton_self _)]
    simp only []
    have hne : ¬ ((ff.map lowerStr).filter
        (fun f => matchesAny SEAFOOD f)).isEmpty = true := by
      rw [List.isEmpty_iff]
      exact List.ne_nil_of_mem hmemf
    rw [if_neg hne]
  have h9 : veganVegetarianSuggestions ["vegetarian"] = [] := by decide
  have hE : (collectFindings ["vegetarian"] [] ff none none none none
      none none).1 = [] := by
    show vegetarianMeatErrors (List.map lowerStr ["vegetarian"]) (ff.map lowerStr) ++
      veganAnimalErrors (List.map lowerStr ["vegetarian"]) (ff.map lowerStr) ++
      (targetBlockFindings (List.map lowerStr ["vegetarian"]) none none none
        none none).1 = []
    rw [hdr, h1, h2, h3]
    rfl
  have hWl : (collectFindings ["vegetarian"] [] ff none none none none
      none none).2.1 = [] := by
    show glutenWarnings (List.map lowerStr ["vegetarian"]) (ff.map lowerStr) ++
      dairyWarnings (List.map lowerStr ["vegetarian"]) (ff.map lowerStr) ++
      (targetBlockFindings (List.map lowerStr ["vegetarian"]) none none none
        none none).2 ++
      goalWarnings none none none ++
      volumeWarnings (List.map lowerStr ["vegetarian"]) (List.map lowerStr []) = []
    rw [hdr, h4, h5, h3, h6, h7]
    rfl
  have hS : (collectFindings ["vegetarian"] [] ff none none none none
      none none).2.2 =
      ["User likes seafood (" ++ String.intercalate ", "
          ((ff.map lowerStr).filter (fun f => matchesAny SEAFOOD f)) ++
        ") - consider asking if they are pescatarian instead of vegetarian"] := by
    show pescatarianSuggestions (List.map lowerStr ["vegetarian"]) (ff.map lowerStr) ++
      veganVegetarianSuggestions (List.map lowerStr ["vegetarian"]) = _
    rw [hdr, h8, h9]
    rfl
  rw [validate_def, compileResult_of_clean _ _ _ hE hWl]
  refine ⟨rfl, rfl, rfl, ?_⟩
  show ∃ s ∈ (collectFindings ["vegetarian"] [] ff none none none none
    none none).2.2, strIn "pescatarian" s = true
  rw [hS]
  refine ⟨_, List.mem_singleton_self _, ?_⟩
  exact strIn_append_right _ _ _ (by decide)

/-- Witness for C7: the concrete call of the claim —
restrictions ["vegetarian"], favorite_foods ["salmon"]. -/
theorem vegetarian_seafood_suggestion_witness :
    ((∀ f ∈ (["salmon"] : List String), matchesAny MEAT_FOODS (lowerStr f) = false) ∧
      ∃ f ∈ (["salmon"] : List String), matchesAny SEAFOOD (lowerStr f) = true) ∧
    (validate_consultation_data ["vegetarian"] [] ["salmon"] none none none
      none none none).status = "success" ∧
    (validate_consultation_data ["vegetarian"] [] ["salmon"] none none none
      none none none).errors = [] ∧
    (validate_consultation_data ["vegetarian"] [] ["salmon"] none none none
      none none none).warnings = [] ∧
    ∃ s ∈ (validate_consultation_data ["vegetarian"] [] ["salmon"] none none
      none none none none).suggestions, strIn "pescatarian" s = true := by
  have main := vegetarian_seafood_suggestion ["salmon"] (by decide) (by decide)
  exact ⟨⟨by decide, by decide⟩, main.1, main.2.1, main.2.2.1, main.2.2.2⟩

/-! ## Helper lemmas — Python truthiness of zero, finding types -/

lemma qtruthy_zero : qtruthy (some 0) = false := by simp [qtruthy]

lemma tb_gate_false (dr : List String) (tc tp tf tcb w : Option ℚ)
    (h : (qtruthy tc && qtruthy tp && qtruthy tf && qtruthy tcb) = false) :
    targetBlockFindings dr tc tp tf tcb w = ([], []) := by
  rw [targetBlockFindings, if_neg]
  simp [h]

lemma gw_gate_false (goal : Option String) (tc w : Option ℚ)
    (h : (struthy goal && qtruthy tc && qtruthy w) = false) :
    goalWarnings goal tc w = [] := by
  rw [goalWarnings, if_neg]
  simp [h]

lemma tb_weight_zero_eq_none (dr : List String) (tc tp tf tcb : Option ℚ) :
    targetBlockFindings dr tc tp tf tcb (some 0) =
      targetBlockFindings dr tc tp tf tcb none := by
  cases hg : (qtruthy tc && qtruthy tp && qtruthy tf && qtruthy tcb) with
  | false => rw [tb_gate_false _ _ _ _ _ _ hg, tb_gate_false _ _ _ _ _ _ hg]
  | true =>
    rw [targetBlockFindings, targetBlockFindings, if_pos hg, if_pos hg]
    simp [qtruthy_zero, qtruthy]

lemma collectFindings_congr (dr fa ff : List String)
    (tc tp tf tcb w tc' tp' tf' tcb' w' : Option ℚ) (goal : Option String)
    (htb : targetBlockFindings (dr.map lowerStr) tc tp tf tcb w =
      targetBlockFindings (dr.map lowerStr) tc' tp' tf' tcb' w')
    (hgw : goalWarnings goal tc w = goalWarnings goal tc' w') :
    collectFindings dr fa ff tc tp tf tcb w goal =
      collectFindings dr fa ff tc' tp' tf' tcb' w' goal := by
  simp only [collectFindings]
  rw [htb, hgw]

lemma mem_vegMeat_type (dr ff : List String) (fd : Finding)
    (h : fd ∈ vegetarianMeatErrors dr ff) : fd.type = "dietary_contradiction" := by
  simp only [vegetarianMeatErrors] at h
  split_ifs at h <;> simp_all

lemma mem_veganAnimal_type (dr ff : List String) (fd : Finding)
    (h : fd ∈ veganAnimalErrors dr ff) : fd.type = "dietary_contradiction" := by
  simp only [veganAnimalErrors] at h
  split_ifs at h <;> simp_all

lemma mem_gluten_type (dr ff : List String) (fd : Finding)
    (h : fd ∈ glutenWarnings dr ff) : fd.type = "dietary_warning" := by
  simp only [glutenWarnings] at h
  split_ifs at h <;> simp_all

lemma mem_dairy_type (dr ff : List String) (fd : Finding)
    (h : fd ∈ dairyWarnings dr ff) : fd.type = "dietary_warning" := by
  simp only [dairyWarnings] at h
  split_ifs at h <;> simp_all

lemma mem_goalW_type (goal : Option String) (tc w : Option ℚ) (fd : Finding)
    (h : fd ∈ goalWarnings goal tc w) : fd.type = "goal_mismatch" := by
  simp only [goalWarnings] at h
  split_ifs at h <;> simp_all

lemma mem_volume_type (dr fa : List String) (fd : Finding)
    (h : fd ∈ volumeWarnings dr fa) :
    fd.type = "too_restrictive" ∨ fd.type = "too_many_avoided_foods" := by
  simp only [volumeWarnings] at h
  rcases List.mem_append.mp h with h1 | h1 <;> split_ifs at h1 <;> simp_all

lemma mem_tb_snd_type (dr : List String) (tc tp tf tcb w : Option ℚ)
    (fd : Finding) (h : fd ∈ (targetBlockFindings dr tc tp tf tcb w).2) :
    fd.type = "low_protein" ∨ fd.type = "high_protein" ∨
      fd.type = "difficult_target" := by
  simp only [targetBlockFindings] at h
  split_ifs at h <;> simp_all <;> rcases h with rfl | rfl <;> simp

lemma mem_tb_snd_type_weight_untruthy (dr : List String)
    (tc tp tf tcb w : Option ℚ) (hw : qtruthy w = false) (fd : Finding)
    (h : fd ∈ (targetBlockFindings dr tc tp tf tcb w).2) :
    fd.type = "difficult_target" := by
  simp only [targetBlockFindings, hw] at h
  split_ifs at h <;> simp_all

lemma compileResult_errors_eq (E W : List Finding) (S : List String) :
    (compileResult E W S).errors = E := by
  rw [compileResult]
  split_ifs <;> simp_all [List.isEmpty_iff]

lemma compileResult_warnings_subset (E W : List Finding) (S : List String)
    (fd : Finding) (h : fd ∈ (compileResult E W S).warnings) : fd ∈ W := by
  rw [compileResult] at h
  split_ifs at h <;> simp_all

lemma validate_errors_cases (dr fa ff : List String)
    (tc tp tf tcb w : Option ℚ) (goal : Option String) (fd : Finding)
    (hfd : fd ∈ (validate_consultation_data dr fa ff tc tp tf tcb w goal).errors) :
    fd ∈ vegetarianMeatErrors (dr.map lowerStr) (ff.map lowerStr) ∨
    fd ∈ veganAnimalErrors (dr.map lowerStr) (ff.map lowerStr) ∨
    fd ∈ (targetBlockFindings (dr.map lowerStr) tc tp tf tcb w).1 := by
  rw [validate_def, compileResult_errors_eq] at hfd
  have e : (collectFindings dr fa ff tc tp tf tcb w goal).1 =
      vegetarianMeatErrors (dr.map lowerStr) (ff.map lowerStr) ++
      veganAnimalErrors (dr.map lowerStr) (ff.map lowerStr) ++
      (targetBlockFindings (dr.map lowerStr) tc tp tf tcb w).1 := rfl
  rw [e] at hfd
  simpa [List.mem_append, or_assoc] using hfd

lemma validate_warnings_cases (dr fa ff : List String)
    (tc tp tf tcb w : Option ℚ) (goal : Option String) (fd : Finding)
    (hfd : fd ∈ (validate_consultation_data dr fa ff tc tp tf tcb w goal).warnings) :
    fd ∈ glutenWarnings (dr.map lowerStr) (ff.map lowerStr) ∨
    fd ∈ dairyWarnings (dr.map lowerStr) (ff.map lowerStr) ∨
    fd ∈ (targetBlockFindings (dr.map lowerStr) tc tp tf tcb w).2 ∨
    fd ∈ goalWarnings goal tc w ∨
    fd ∈ volumeWarnings (dr.map lowerStr) (fa.map lowerStr) := by
  rw [validate_def] at hfd
  have h := compileResult_warnings_subset _ _ _ fd hfd
  have e : (collectFindings dr fa ff tc tp tf tcb w goal).2.1 =
      glutenWarnings (dr.map lowerStr) (ff.map lowerStr) ++
      dairyWarnings (dr.map lowerStr) (ff.map lowerStr) ++
      (targetBlockFindings (dr.map lowerStr) tc tp tf tcb w).2 ++
      goalWarnings goal tc w ++
      volumeWarnings (dr.map lowerStr) (fa.map lowerStr) := rfl
  rw [e] at h
  simpa [List.mem_append, or_assoc] using h

/-- C10: `validate_consultation_data` treats a zero-valued numeric input
exactly like an absent one.  Replacing `some 0` by `none` in weight_kg or
in any of the four targets leaves the result unchanged, and with a zero
(or absent) gate value the corresponding numeric checks contribute no
findings: no "macro_mismatch" / protein-density / "difficult_target"
finding when a target is 0, and no protein-density or "goal_mismatch"
finding when weight_kg is 0 — in particular the division
target_protein_g / weight_kg sits behind the `if weight_kg:` guard and is
never reached with weight_kg = 0. -/
theorem zero_numeric_treated_as_absent (dr fa ff : List String)
    (tc tp tf tcb w : Option ℚ) (goal : Option String) :
    (validate_consultation_data dr fa ff (some 0) tp tf tcb w goal =
      validate_consultation_data dr fa ff none tp tf tcb w goal) ∧
    (validate_consultation_data dr fa ff tc (some 0) tf tcb w goal =
      validate_consultation_data dr fa ff tc none tf tcb w goal) ∧
    (validate_consultation_data dr fa ff tc tp (some 0) tcb w goal =
      validate_consultation_data dr fa ff tc tp none tcb w goal) ∧
    (validate_consultation_data dr fa ff tc tp tf (some 0) w goal =
      validate_consultation_data dr fa ff tc tp tf none w goal) ∧
    (validate_consultation_data dr fa ff tc tp tf tcb (some 0) goal =
      validate_consultation_data dr fa ff tc tp tf tcb none goal) ∧
    ((tc = some 0 ∨ tp = some 0 ∨ tf = some 0 ∨ tcb = some 0) →
      (∀ fd ∈ (validate_consultation_data dr fa ff tc tp tf tcb w goal).errors,
        fd.type ≠ "macro_mismatch") ∧
      (∀ fd ∈ (validate_consultation_data dr fa ff tc tp tf tcb w goal).warnings,
        fd.type ≠ "low_protein" ∧ fd.type ≠ "high_protein" ∧
          fd.type ≠ "difficult_target")) ∧
    (w = some 0 →
      ∀ fd ∈ (validate_consultation_data dr fa ff tc tp tf tcb w goal).warnings,
        fd.type ≠ "low_protein" ∧ fd.type ≠ "high_protein" ∧
          fd.type ≠ "goal_mismatch") ∧
    (tc = some 0 →
      ∀ fd ∈ (validate_consultation_data dr fa ff tc tp tf tcb w goal).warnings,
        fd.type ≠ "goal_mismatch") := by
  refine ⟨?_, ?_, ?_, ?_, ?_, ?_, ?_, ?_⟩
  · rw [validate_def, validate_def,
      collectFindings_congr dr fa ff (some 0) tp tf tcb w none tp tf tcb w goal
        ((tb_gate_false _ _ _ _ _ _ (by simp [qtruthy_zero])).trans
          (tb_gate_false _ _ _ _ _ _ (by simp [qtruthy])).symm)
        ((gw_gate_false _ _ _ (by simp [qtruthy_zero])).trans
          (gw_gate_false _ _ _ (by simp [qtruthy])).symm)]
  · rw [validate_def, validate_def,
      collectFindings_congr dr fa ff tc (some 0) tf tcb w tc none tf tcb w goal
        ((tb_gate_false _ _ _ _ _ _ (by simp [qtruthy_zero])).trans
          (tb_gate_false _ _ _ _ _ _ (by simp [qtruthy])).symm)
        rfl]
  · rw [validate_def, validate_def,
      collectFindings_congr dr fa ff tc tp (some 0) tcb w tc tp none tcb w goal
        ((tb_gate_false _ _ _ _ _ _ (by simp [qtruthy_zero])).trans
          (tb_gate_false _ _ _ _ _ _ (by simp [qtruthy])).symm)
        rfl]
  · rw [validate_def, validate_def,
      collectFindings_congr dr fa ff tc tp tf (some 0) w tc tp tf none w goal
        ((tb_gate_false _ _ _ _ _ _ (by simp [qtruthy_zero])).trans
          (tb_gate_false _ _ _ _ _ _ (by simp [qtruthy])).symm)
        rfl]
  · rw [validate_def, validate_def,
      collectFindings_congr dr fa ff tc tp tf tcb (some 0) tc tp tf tcb none goal
        (tb_weight_zero_eq_none _ _ _ _ _)
        ((gw_gate_false _ _ _ (by simp [qtruthy_zero])).trans
          (gw_gate_false _ _ _ (by simp [qtruthy])).symm)]
  · intro hz
    have hgate : (qtruthy tc && qtruthy tp && qtruthy tf && qtruthy tcb) = false := by
      rcases hz with h | h | h | h <;> subst h <;> simp [qtruthy_zero]
    have htb := tb_gate_false (dr.map lowerStr) tc tp tf tcb w hgate
    constructor
    · intro fd hfd
      rcases validate_errors_cases dr fa ff tc tp tf tcb w goal fd hfd with h | h | h
      · rw [mem_vegMeat_type _ _ _ h]; decide
      · rw [mem_veganAnimal_type _ _ _ h]; decide
      · rw [htb] at h; simp at h
    · intro fd hfd
      rcases validate_warnings_cases dr fa ff tc tp tf tcb w goal fd hfd with
        h | h | h | h | h
      · rw [mem_gluten_type _ _ _ h]; decide
      · rw [mem_dairy_type _ _ _ h]; decide
      · rw [htb] at h; simp at h
      · rw [mem_goalW_type _ _ _ _ h]; decide
      · rcases mem_volume_type _ _ _ h with h' | h' <;> rw [h'] <;> decide
  · intro hw0
    subst hw0
    intro fd hfd
    rcases validate_warnings_cases dr fa ff tc tp tf tcb (some 0) goal fd hfd with
      h | h | h | h | h
    · rw [mem_gluten_type _ _ _ h]; decide
    · rw [mem_dairy_type _ _ _ h]; decide
    · rw [mem_tb_snd_type_weight_untruthy _ tc tp tf tcb _ qtruthy_zero fd h]
      decide
    · rw [gw_gate_false _ _ _ (by simp [qtruthy_zero])] at h
      simp at h
    · rcases mem_volume_type _ _ _ h with h' | h' <;> rw [h'] <;> decide
  · intro h0
    subst h0
    intro fd hfd
    rcases validate_warnings_cases dr fa ff (some 0) tp tf tcb w goal fd hfd with
      h | h | h | h | h
    · rw [mem_gluten_type _ _ _ h]; decide
    · rw [mem_dairy_type _ _ _ h]; decide
    · rw [tb_gate_false _ _ _ _ _ _ (by simp [qtruthy_zero])] at h
      simp at h
    · rw [gw_gate_false _ _ _ (by simp [qtruthy_zero])] at h
      simp at h
    · rcases mem_volume_type _ _ _ h with h' | h' <;> rw [h'] <;> decide

/-- Witness for C10 at a concrete input with target_calories = 0 and
weight_kg = 0 alongside present protein/fat/carb targets and a goal. -/
theorem zero_numeric_treated_as_absent_witness :
    (validate_consultation_data [] [] [] (some 0) (some 100) (some 50)
        (some 200) (some 0) (some "weight_loss") =
      validate_consultation_data [] [] [] none (some 100) (some 50)
        (some 200) (some 0) (some "weight_loss")) ∧
    (∀ fd ∈ (validate_consultation_data [] [] [] (some 0) (some 100) (some 50)
        (some 200) (some 0) (some "weight_loss")).errors,
      fd.type ≠ "macro_mismatch") ∧
    (∀ fd ∈ (validate_consultation_data [] [] [] (some 0) (some 100) (some 50)
        (some 200) (some 0) (some "weight_loss")).warnings,
      fd.type ≠ "low_protein" ∧ fd.type ≠ "high_protein" ∧
        fd.type ≠ "goal_mismatch") := by
  have main := zero_numeric_treated_as_absent [] [] [] (some 0) (some 100)
    (some 50) (some 200) (some 0) (some "weight_loss")
  exact ⟨main.1, (main.2.2.2.2.2.1 (Or.inl rfl)).1, main.2.2.2.2.2.2.1 rfl⟩

/-- Witness for C5: an input producing both an error finding (vegetarian +
beef) and a warning finding (gluten-free + bread) reports status "error". -/
theorem validator_status_aggregation_witness :
    (collectFindings ["vegetarian", "gluten_free"] [] ["beef", "bread"]
      none none none none none none).1 ≠ [] ∧
    (collectFindings ["vegetarian", "gluten_free"] [] ["beef", "bread"]
      none none none none none none).2.1 ≠ [] ∧
    (validate_consultation_data ["vegetarian", "gluten_free"] []
      ["beef", "bread"] none none none none none none).status = "error" := by
  refine ⟨by decide, by decide, ?_⟩
  exact (validator_status_aggregation ["vegetarian", "gluten_free"] []
    ["beef", "bread"] none none none none none none).2.2 (by decide) (by decide)
